import Mathlib

/-!
Shallow embedding of the recipe lifecycle engine of `cloud-autopkg-runner`
(files `src/cloud_autopkg_runner/recipe.py` and
`src/cloud_autopkg_runner/settings.py`), together with theorems checking the
natural-language specification against it.

External collaborators (the `autopkg` subprocess, the filesystem, the yaml and
plist decoders, the attribute primitives of `file_utils.py`, the cache store of
`metadata_cache.py`) are modelled as parameters: functions or environment
records supplied to the embedded operations.  Side effects (subprocess
invocations, cache saves, directory creation) are recorded in an explicit
trace of `Effect` values, in program order.
-/

namespace CloudAutopkgRunner

/-- The Python exceptions that the embedded code can raise.  `lookup`,
`format`, `invalidPlist`, `invalidYaml` and `input` correspond to
`RecipeLookupException`, `RecipeFormatException`, `InvalidPlistContents`,
`InvalidYamlContents` and `RecipeInputException` of `exceptions.py`;
`keyError` is Python's built-in `KeyError`; `typeError` is Python's built-in
`TypeError`; `loopFuel` marks exhaustion of the fuel of the embedded
report-path scan loop (proved unreachable in `choosePath_isSome`). -/
inductive PyError where
  | lookup (recipeName : String)
  | format (suffix : String)
  | invalidPlist (path : String)
  | invalidYaml (path : String)
  | input (path : String)
  | keyError
  | typeError
  | loopFuel
  deriving DecidableEq, Repr

/-- A Python dictionary with string keys and string values, embedded as an
association list (first binding wins, as `List.lookup` does). -/
abbrev Item := List (String × String)

/-- `RecipeContents` (recipe.py, lines 44-66): the parsed contents of a
recipe file.  `Input` values are embedded as strings, which is the case the
spec's claims exercise (the `NAME` input). -/
structure RecipeContents where
  Description : Option String
  Identifier : String
  Input : List (String × String)
  MinimumVersion : Option String
  ParentRecipe : Option String
  Process : List Item
  deriving DecidableEq, Repr

/-- `RecipeFormat` (recipe.py, lines 69-81). -/
inductive RecipeFormat where
  | yaml
  | plist
  deriving DecidableEq, Repr

/-- `DownloadMetadata` (metadata_cache.py, imported by recipe.py): the
per-artifact fingerprint assembled by `Recipe._get_metadata_for_item`. -/
structure DownloadMetadata where
  etag : Option String
  file_size : Option Nat
  last_modified : Option String
  file_path : String
  deriving DecidableEq, Repr

/-- `RecipeCache` (metadata_cache.py): a timestamp plus the collected
`DownloadMetadata` list, as assembled by `Recipe._get_metadata`. -/
structure RecipeCache where
  timestamp : String
  metadata : List DownloadMetadata
  deriving DecidableEq, Repr

/-- Modelled from the spec: `ConsolidatedReport` lives in
`recipe_report.py`, which is not under `src/`; the spec's data model lists
its four sections (failures, downloads, builds, imports), and `Recipe.run`
reads its `downloaded_items` section. -/
structure ConsolidatedReport where
  failed_items : List Item
  downloaded_items : List Item
  pkg_builds : List Item
  munki_imports : List Item
  deriving DecidableEq, Repr

/-- `TrustInfoVerificationState` (recipe.py, lines 588-602).  The source
declares `UNTESTED = auto()` (the int `1`), `FAILED = False` and
`TRUSTED = True`; because Python's `Enum` canonicalizes members by value
equality and `True == 1`, `TRUSTED` is not a third member but an alias of
`UNTESTED`.  The embedded type therefore has exactly the two real members,
with `TRUSTED` defined below as the alias it is in the source. -/
inductive TrustInfoVerificationState where
  | UNTESTED
  | FAILED
  deriving DecidableEq, Repr

/-- The `TRUSTED` name of the source enum: an alias of `UNTESTED`, since
`True == 1` makes the two declarations the same enum member. -/
def TrustInfoVerificationState.TRUSTED : TrustInfoVerificationState :=
  .UNTESTED

/-- A Python value as returned by `TrustInfoVerificationState.value`:
either an int (for `UNTESTED = auto()`) or a bool. -/
inductive PyValue where
  | int (n : Int)
  | bool (b : Bool)
  deriving DecidableEq, Repr

/-- The `.value` attribute of the enum members (recipe.py, lines 600-602):
the canonical `UNTESTED` member (also reached via the `TRUSTED` alias)
carries the int `1`; `FAILED` carries the bool `False`. -/
def TrustInfoVerificationState.value : TrustInfoVerificationState → PyValue
  | .UNTESTED => .int 1
  | .FAILED => .bool false

/-- `Recipe.verify_trust_info` (recipe.py, lines 552-585), as a transition on
the memoized `_trusted` field.  `exitCode` is the exit code the external
`autopkg verify-trust-info` subprocess would return; `run_cmd` is invoked
with `check=False`, so a non-zero exit does not raise (the function is
total).  The result is the new `_trusted` state, the returned
`self._trusted.value`, and the number of subprocess invocations performed
(0 or 1).  Note the assignment on success stores
`TrustInfoVerificationState.TRUSTED`, which is the `UNTESTED` alias, so a
successful verification leaves the state comparing equal to `UNTESTED`. -/
def Recipe.verifyTrustInfo (trusted : TrustInfoVerificationState)
    (exitCode : Int) : TrustInfoVerificationState × PyValue × Nat :=
  if trusted = .UNTESTED then
    let trusted' : TrustInfoVerificationState :=
      if exitCode = 0 then .TRUSTED else .FAILED
    (trusted', trusted'.value, 1)
  else
    (trusted, trusted.value, 0)

/-- `Recipe.update_trust_info` (recipe.py, lines 522-550).  Modelled from the
spec: `run_cmd` (shell.py, not under `src/`) is called here without
`check=False`; the spec states that subprocess non-zero exits are not
exceptions, so `run_cmd` is embedded as returning the exit code without
raising.  The `_trusted` state is unconditionally reset to `UNTESTED`, the
returned bool is `returncode == 0`, and exactly one subprocess invocation is
performed.  The prior state is a parameter only to show the result does not
depend on it. -/
def Recipe.updateTrustInfo (_trusted : TrustInfoVerificationState)
    (exitCode : Int) : TrustInfoVerificationState × Bool × Nat :=
  let trusted := TrustInfoVerificationState.UNTESTED
  if exitCode = 0 then (trusted, true, 1) else (trusted, false, 1)

/-- A settings instance (`SettingsImpl`, settings.py).  `objId` models Python
object identity (two instances are "the identical singleton instance" when
their `objId` agrees); `initialized` models the `_initialized` attribute that
guards `__init__` against re-initialization. -/
structure SettingsObj where
  objId : Nat
  cache_file : String
  log_file : Option String
  max_concurrency : Int
  report_dir : String
  verbosity_level : Int
  initialized : Bool
  deriving DecidableEq, Repr

/-- The keyword arguments of a `SettingsImpl(...)` call; `none` means the
argument was not passed (so the default of `__init__` applies). -/
structure CtorArgs where
  cache_file : Option String := none
  log_file : Option (Option String) := none
  max_concurrency : Option Int := none
  report_dir : Option String := none
  verbosity_level : Option Int := none
  deriving DecidableEq, Repr

/-- Whether any constructor argument was actually passed. -/
def CtorArgs.nonempty (a : CtorArgs) : Bool :=
  a.cache_file.isSome || a.log_file.isSome || a.max_concurrency.isSome ||
    a.report_dir.isSome || a.verbosity_level.isSome

/-- `SettingsImpl.__init__` (settings.py, lines 55-86): sets the fields from
the arguments (with the signature's defaults) only when the instance does not
yet carry `_initialized`; otherwise leaves the instance unchanged. -/
def settingsInit (obj : SettingsObj) (args : CtorArgs) : SettingsObj :=
  if obj.initialized then obj
  else
    { objId := obj.objId
      cache_file := args.cache_file.getD "metadata_cache.json"
      log_file := args.log_file.getD none
      max_concurrency := args.max_concurrency.getD 10
      report_dir := args.report_dir.getD "recipe_reports"
      verbosity_level := args.verbosity_level.getD 0
      initialized := true }

/-- One full `SettingsImpl(...)` call: `__new__` (settings.py, lines 36-53)
followed by `__init__`.  `instanceVar` is the class attribute `_instance`;
`freshId` is the identity a newly allocated object would get.  When no
instance exists yet, `__new__` forwards `*args`/`**kwargs` to
`object.__new__`, which raises `TypeError` on excess arguments because
`SettingsImpl.__new__` is overridden; when an instance exists it is returned
as-is and `__init__` runs on it (guarded by `_initialized`).  The result is
the returned instance paired with the new `_instance` value. -/
def settingsImplCall (instanceVar : Option SettingsObj) (freshId : Nat)
    (args : CtorArgs) : Except PyError (SettingsObj × Option SettingsObj) :=
  match instanceVar with
  | some obj =>
      let obj' := settingsInit obj args
      .ok (obj', some obj')
  | none =>
      if args.nonempty then .error .typeError
      else
        let obj := settingsInit
          { objId := freshId, cache_file := "", log_file := none,
            max_concurrency := 0, report_dir := "", verbosity_level := 0,
            initialized := false } args
        .ok (obj, some obj)

/-- The `SettingsObj` produced by the module-level `settings = SettingsImpl()`
call (settings.py, line 275): every field at its `__init__` default. -/
def defaultSettingsObj (freshId : Nat) : SettingsObj :=
  { objId := freshId
    cache_file := "metadata_cache.json"
    log_file := none
    max_concurrency := 10
    report_dir := "recipe_reports"
    verbosity_level := 0
    initialized := true }

/-- `Settings.verbosity_int` (settings.py, lines 192-206). -/
def verbosityInt (verbosityLevel : Int) (delta : Int) : Int :=
  let level := verbosityLevel + delta
  if level ≤ 0 then 0 else level

/-- `Settings.verbosity_str` (settings.py, lines 208-230). -/
def verbosityStr (verbosityLevel : Int) (delta : Int) : String :=
  let level := verbosityLevel + delta
  if level ≤ 0 then ""
  else "-" ++ String.mk (List.replicate level.toNat 'v')

/-- The filesystem and AutoPkg-preferences surface consumed by
`Recipe.find_recipe` (recipe.py, lines 234-263): the configured override and
search directories (`AutoPkgPrefs`, not under `src/`, is just the carrier of
these two lists), `Path.expanduser`, `Path.rglob` (all matches of a filename
under a directory, recursively, in traversal order) and `Path.exists`. -/
structure FileSys where
  overrideDirs : List String
  searchDirs : List String
  expanduser : String → String
  rglob : String → String → List String
  fexists : String → Bool

/-- The extension test of `Recipe.find_recipe` (recipe.py, line 247):
`recipe_name.endswith((".recipe", ".recipe.plist", ".recipe.yaml"))`. -/
def hasRecipeExt (recipeName : String) : Bool :=
  recipeName.endsWith ".recipe" || recipeName.endsWith ".recipe.plist" ||
    recipeName.endsWith ".recipe.yaml"

/-- The candidate filenames of `Recipe.find_recipe`
(recipe.py, lines 247-254). -/
def possibleFilenames (recipeName : String) : List String :=
  if hasRecipeExt recipeName then [recipeName]
  else
    [recipeName ++ ".recipe", recipeName ++ ".recipe.plist",
      recipeName ++ ".recipe.yaml"]

/-- `Recipe.find_recipe` (recipe.py, lines 234-263): scan the override
directories followed by the search directories; within each directory try the
candidate filenames in order; within each candidate take the first `rglob`
match that exists.  Raise `RecipeLookupException` when nothing matches. -/
def findRecipe (fs : FileSys) (recipeName : String) : Except PyError String :=
  let lookupDirs := fs.overrideDirs ++ fs.searchDirs
  match lookupDirs.findSome? (fun lookupPath =>
      (possibleFilenames recipeName).findSome? (fun filename =>
        (fs.rglob (fs.expanduser lookupPath) filename).find? fs.fexists)) with
  | some recipePath => .ok recipePath
  | none => .error (.lookup recipeName)

/-- `Path.name` of a path string: the part after the last slash. -/
def fileNameOf (path : String) : String :=
  (path.splitOn "/").getLastD ""

/-- `Path.suffix` of a path string: the last dot-extension of its file name
(empty for names without a dot and for dotfiles). -/
def suffixOf (path : String) : String :=
  let parts := (fileNameOf path).splitOn "."
  match parts with
  | [] => ""
  | [_] => ""
  | first :: rest =>
      if first = "" && rest.length == 1 then ""
      else "." ++ parts.getLastD ""

/-- `Recipe.format` (recipe.py, lines 434-447): dispatch on the file
extension, raising `RecipeFormatException` on an unrecognized one. -/
def Recipe.formatOf (path : String) : Except PyError RecipeFormat :=
  if suffixOf path = ".yaml" then .ok .yaml
  else if suffixOf path = ".plist" || suffixOf path = ".recipe" then .ok .plist
  else .error (.format (suffixOf path))

/-- `Recipe._get_contents_plist` (recipe.py, lines 329-344).  `plistlib.loads`
is external; it is embedded as the parameter `parsePlist`, with `none` for a
document it rejects (`plistlib.InvalidFileException`), which is re-raised as
`InvalidPlistContents` carrying the recipe path. -/
def Recipe.getContentsPlist (path : String)
    (parsePlist : String → Option RecipeContents) (fileContents : String) :
    Except PyError RecipeContents :=
  match parsePlist fileContents with
  | some contents => .ok contents
  | none => .error (.invalidPlist path)

/-- `Recipe._get_contents_yaml` (recipe.py, lines 346-361).  `yaml.safe_load`
is external; it is embedded as the parameter `parseYaml`, with `none` for a
document it rejects (`yaml.YAMLError`), which is re-raised as
`InvalidYamlContents` carrying the recipe path. -/
def Recipe.getContentsYaml (path : String)
    (parseYaml : String → Option RecipeContents) (fileContents : String) :
    Except PyError RecipeContents :=
  match parseYaml fileContents with
  | some contents => .ok contents
  | none => .error (.invalidYaml path)

/-- `Recipe._get_contents` (recipe.py, lines 314-327): dispatch on the
detected format. -/
def Recipe.getContents (fmt : RecipeFormat) (path : String)
    (parsePlist parseYaml : String → Option RecipeContents)
    (fileContents : String) : Except PyError RecipeContents :=
  match fmt with
  | .yaml => Recipe.getContentsYaml path parseYaml fileContents
  | .plist => Recipe.getContentsPlist path parsePlist fileContents

/-- `Recipe.input_name` (recipe.py, lines 176-189): look up the `NAME` key of
the parsed `Input` mapping, raising `RecipeInputException` (carrying the
recipe path) when it is absent. -/
def Recipe.inputName (path : String) (contents : RecipeContents) :
    Except PyError String :=
  match contents.Input.lookup "NAME" with
  | some v => .ok v
  | none => .error (.input path)

/-- A side effect performed by the embedded pipeline, recorded in program
order: an external subprocess invocation (with its full command line), a
`MetadataCacheManager.save` call, a `mkdir(parents=True, exist_ok=True)`,
or the binding of a `RecipeReport` to its report file. -/
inductive Effect where
  | runSubprocess (cmd : List String)
  | saveCache (cacheFile : String) (key : String) (cache : RecipeCache)
  | mkdirParents (dir : String)
  | createReport (dir stem ext : String)
  deriving DecidableEq, Repr

/-- The identity of one `Recipe` as consumed by `Recipe.run` and its helpers:
`name` is `self.name` (the file name of the resolved recipe path),
`reportPath` the rendered path of `self._result`, `cacheFile` the
`settings.cache_file` value, `verbosityLevel` the `settings.verbosity_level`
value. -/
structure RecipeRun where
  name : String
  reportPath : String
  cacheFile : String
  verbosityLevel : Int

/-- The external world consumed by one `Recipe.run`: subprocess exit codes,
the consolidated report compiled after each phase (the report file is re-read
each time, so the two may differ), the file-attribute primitives of
`file_utils.py` (`get_file_metadata` returns `None` for an absent attribute,
`get_file_size` likewise), the collection timestamp, and whether the
`MetadataCacheManager.save` call fails. -/
structure RunEnv where
  checkExit : Int
  fullExit : Int
  reportAfterCheck : ConsolidatedReport
  reportAfterFull : ConsolidatedReport
  etag : String → Option String
  fileSize : String → Option Nat
  lastModified : String → Option String
  now : String
  saveError : Option PyError

/-- `Recipe._autopkg_run_cmd` (recipe.py, lines 265-287). -/
def autopkgRunCmd (r : RecipeRun) (check : Bool) : List String :=
  let cmd := ["/usr/local/bin/autopkg", "run", r.name,
    "--report-plist=" ++ r.reportPath]
  let cmd := if verbosityInt r.verbosityLevel (-1) > 0 then
    cmd ++ [verbosityStr r.verbosityLevel (-1)] else cmd
  if check then cmd ++ ["--check"] else cmd

/-- `Recipe._extract_download_paths` (recipe.py, lines 289-312): an empty
input yields `[]`; otherwise each entry's `download_path` value is read with
Python's subscript operator, which raises `KeyError` when the key is
absent. -/
def extractDownloadPaths (downloadItems : List Item) :
    Except PyError (List String) :=
  if downloadItems.isEmpty then .ok []
  else downloadItems.mapM (fun item =>
    match item.lookup "download_path" with
    | some p => .ok p
    | none => .error .keyError)

/-- `Recipe._get_metadata_for_item` (recipe.py, lines 390-422): fetch the
etag and last-modified attributes and the file size (concurrently in the
source; their join is order-insensitive, so the embedding records the
assembled result). -/
def getMetadataForItem (env : RunEnv) (downloadedItem : String) :
    DownloadMetadata :=
  { etag := env.etag downloadedItem
    file_size := env.fileSize downloadedItem
    last_modified := env.lastModified downloadedItem
    file_path := downloadedItem }

/-- `Recipe._get_metadata` (recipe.py, lines 363-388): extract the download
paths, gather one `DownloadMetadata` per path, and stamp the result with the
collection's own UTC timestamp. -/
def getMetadata (env : RunEnv) (downloadItems : List Item) :
    Except PyError RecipeCache :=
  match extractDownloadPaths downloadItems with
  | .error e => .error e
  | .ok paths =>
      .ok { timestamp := env.now
            metadata := paths.map (getMetadataForItem env) }

/-- `Recipe.run_check_phase` (recipe.py, lines 468-494): invoke AutoPkg with
`--check` (a non-zero exit is only logged, `run_cmd` being called with
`check=False`), then compile the consolidated report from the report file. -/
def Recipe.runCheckPhase (r : RecipeRun) (env : RunEnv) :
    ConsolidatedReport × List Effect :=
  (env.reportAfterCheck, [.runSubprocess (autopkgRunCmd r true)])

/-- `Recipe.run_full` (recipe.py, lines 496-520): invoke AutoPkg without
`--check` (non-zero exit only logged), then compile the consolidated
report. -/
def Recipe.runFull (r : RecipeRun) (env : RunEnv) :
    ConsolidatedReport × List Effect :=
  (env.reportAfterFull, [.runSubprocess (autopkgRunCmd r false)])

/-- `Recipe.run` (recipe.py, lines 449-466): run the check phase; if its
report's `downloaded_items` is empty (falsy) return it; otherwise collect
the metadata, save it to the cache store keyed by `self.name`, and only then
run the full phase, returning its report.  Metadata-collection and
cache-save failures propagate. -/
def Recipe.run (r : RecipeRun) (env : RunEnv) :
    Except PyError (ConsolidatedReport × List Effect) :=
  let (output, trace) := Recipe.runCheckPhase r env
  if output.downloaded_items.isEmpty then .ok (output, trace)
  else
    match getMetadata env output.downloaded_items with
    | .error e => .error e
    | .ok metadata =>
        let trace := trace ++ [.saveCache r.cacheFile r.name metadata]
        match env.saveError with
        | some e => .error e
        | none =>
            let (fullOutput, fullTrace) := Recipe.runFull r env
            .ok (fullOutput, trace ++ fullTrace)

/-- A filesystem path as manipulated by the report-path computation of
`Recipe.__init__` (recipe.py, lines 120-134): `pathlib`'s `with_stem`
replaces the `stem` component and keeps the directory and the (last)
suffix, so the path is embedded with those three components explicit.
`render` flattens it back to a path string. -/
structure ReportPath where
  dir : String
  stem : String
  ext : String
  deriving DecidableEq, Repr

/-- The rendered path string of a `ReportPath`. -/
def ReportPath.render (p : ReportPath) : String :=
  p.dir ++ "/" ++ p.stem ++ p.ext

/-- The `counter`-th candidate tested by the while loop of `Recipe.__init__`
(recipe.py, lines 125-131): candidate 0 is the original
`report_{now}_{name}.plist` path; candidate `k ≥ 1` is
`original.with_stem(f"{original.stem}_{k}")`. -/
def reportCandidate (orig : ReportPath) (k : Nat) : ReportPath :=
  if k = 0 then orig else { orig with stem := orig.stem ++ "_" ++ Nat.repr k }

/-- The while loop of `Recipe.__init__` (recipe.py, lines 125-131), with
explicit fuel: starting from candidate index `k`, return the first candidate
for which `existsF` is false.  The Python loop has no fuel; `choosePath`
supplies enough for the scan always to succeed (`choosePath_isSome`). -/
def scanLoop (existsF : ReportPath → Bool) (orig : ReportPath) :
    Nat → Nat → Option ReportPath
  | 0, _ => none
  | fuel + 1, k =>
      let c := reportCandidate orig k
      if existsF c then scanLoop existsF orig fuel (k + 1) else some c

/-- The report-path disambiguation of `Recipe.__init__`: scan candidates
0, 1, 2, ... against the set of files existing in the report directory
(embedded as the list `existing`) and keep the first free one. -/
def choosePath (existing : List ReportPath) (orig : ReportPath) :
    Option ReportPath :=
  scanLoop (fun p => decide (p ∈ existing)) orig (existing.length + 2) 0

/-- The original report path composed by `Recipe.__init__` (recipe.py,
lines 120-123): the report directory is the explicit argument when given,
otherwise `settings.report_dir`; the stem composes the minute-resolution
timestamp with the recipe's file name. -/
def mkOrigReportPath (reportDirArg : Option String) (settingsReportDir : String)
    (nowStr : String) (recipeFileName : String) : ReportPath :=
  { dir := reportDirArg.getD settingsReportDir
    stem := "report_" ++ nowStr ++ "_" ++ recipeFileName
    ext := ".plist" }

/-- Two successive `Recipe` constructions scanning the same report
directory: the second scan sees the first construction's report path as
existing.  Modelled from the spec: `RecipeReport` (recipe_report.py, not
under `src/`) is bound to the chosen path at construction (recipe.py,
line 134) and the spec states the recipe then owns that report file, the
scan-and-increment guaranteeing "no collision with an existing file" and
distinct paths for two same-minute constructions. -/
def constructTwoReports (existing : List ReportPath)
    (orig1 orig2 : ReportPath) : Option (ReportPath × ReportPath) :=
  match choosePath existing orig1 with
  | none => none
  | some p1 =>
      match choosePath (p1 :: existing) orig2 with
      | none => none
      | some p2 => some (p1, p2)

/-- The environment of the external decoders consumed by `Recipe.__init__`:
`Path.read_text` plus the two document decoders. -/
structure ParseEnv where
  readFile : String → String
  parseYaml : String → Option RecipeContents
  parsePlist : String → Option RecipeContents

/-- `Recipe.__init__` (recipe.py, lines 99-134), with its side effects
traced: locate the recipe (a `RecipeLookupException` here is re-raised, so
construction fails before any effect), detect the format, parse the
contents, compute the disambiguated report path, create the report directory
and bind the `RecipeReport`.  The result carries the resolved path, the
parsed contents and the chosen report path. -/
def recipeInit (fs : FileSys) (pe : ParseEnv) (recipeName : String)
    (reportDirArg : Option String) (settingsReportDir : String)
    (nowStr : String) (existing : List ReportPath) :
    List Effect × Except PyError (String × RecipeContents × ReportPath) :=
  match findRecipe fs recipeName with
  | .error e => ([], .error e)
  | .ok path =>
      match Recipe.formatOf path with
      | .error e => ([], .error e)
      | .ok fmt =>
          match Recipe.getContents fmt path pe.parsePlist pe.parseYaml
              (pe.readFile path) with
          | .error e => ([], .error e)
          | .ok contents =>
              let orig := mkOrigReportPath reportDirArg settingsReportDir
                nowStr (fileNameOf path)
              match choosePath existing orig with
              | none => ([], .error .loopFuel)
              | some rp =>
                  ([.mkdirParents rp.dir, .createReport rp.dir rp.stem rp.ext],
                    .ok (path, contents, rp))

/-- A concrete `RecipeRun` used to evaluate the pipeline on closed inputs. -/
def sampleRecipeRun : RecipeRun :=
  { name := "Foo.recipe.yaml"
    reportPath := "recipe_reports/report_250101_0101_Foo.recipe.yaml.plist"
    cacheFile := "metadata_cache.json"
    verbosityLevel := 0 }

/-- A concrete consolidated report with no downloaded items. -/
def emptyReport : ConsolidatedReport :=
  { failed_items := [], downloaded_items := [], pkg_builds := [],
    munki_imports := [] }

/-- A concrete consolidated report with one downloaded item. -/
def oneItemReport : ConsolidatedReport :=
  { failed_items := []
    downloaded_items := [[("download_path", "/tmp/x.dmg")]]
    pkg_builds := [["pkg"]].map (fun s => s.map (fun x => (x, x)))
    munki_imports := [] }

/-- A concrete `RunEnv` whose check phase reports no downloads. -/
def sampleEnvNoDownloads : RunEnv :=
  { checkExit := 0, fullExit := 0
    reportAfterCheck := emptyReport
    reportAfterFull := emptyReport
    etag := fun _ => none
    fileSize := fun _ => none
    lastModified := fun _ => none
    now := "2025-01-01 01:01:00+00:00"
    saveError := none }

/-- A concrete `RunEnv` whose check phase reports one downloaded item. -/
def sampleEnvOneDownload : RunEnv :=
  { checkExit := 0, fullExit := 0
    reportAfterCheck := oneItemReport
    reportAfterFull := emptyReport
    etag := fun p => if p = "/tmp/x.dmg" then some "etag-1" else none
    fileSize := fun p => if p = "/tmp/x.dmg" then some 1024 else none
    lastModified := fun _ => none
    now := "2025-01-01 01:01:00+00:00"
    saveError := none }

/-- A concrete filesystem with one recipe file reachable from the override
directory and nothing else. -/
def sampleFileSys : FileSys :=
  { overrideDirs := ["over"]
    searchDirs := ["search"]
    expanduser := fun d => d
    rglob := fun d fn =>
      if d = "over" && fn = "Foo.recipe.plist" then ["over/Foo.recipe.plist"]
      else []
    fexists := fun _ => true }

/-- A concrete filesystem in which nothing matches. -/
def emptyFileSys : FileSys :=
  { overrideDirs := ["over"]
    searchDirs := ["search"]
    expanduser := fun d => d
    rglob := fun _ _ => []
    fexists := fun _ => true }

/-- A concrete parse environment whose yaml decoder accepts exactly the
document `"good"` and whose plist decoder rejects everything. -/
def sampleParseEnv : ParseEnv :=
  { readFile := fun _ => "good"
    parseYaml := fun s =>
      if s = "good" then
        some { Description := none, Identifier := "com.example.test",
               Input := [("NAME", "Foo")], MinimumVersion := none,
               ParentRecipe := none, Process := [] }
      else none
    parsePlist := fun _ => none }

/-- The identifier declared by a document under a given decoder (`none` when
the decoder rejects the document). -/
def declaredIdentifier (parse : String → Option RecipeContents)
    (doc : String) : Option String :=
  (parse doc).map (·.Identifier)

/-! ## Helper lemmas

Decimal representation: `Nat.repr` is injective.  This backs the pairwise
distinctness of the candidate report paths generated by the constructor's
scan-and-increment loop. -/

theorem toDigitsCore_eq_digits (fuel : Nat) :
    ∀ (n : Nat) (ds : List Char), 0 < n → n < fuel →
      Nat.toDigitsCore 10 fuel n ds =
        ((Nat.digits 10 n).map Nat.digitChar).reverse ++ ds := by
  induction fuel with
  | zero => intro n ds hn hf; omega
  | succ fuel ih =>
      intro n ds hn hf
      rw [Nat.toDigitsCore]
      by_cases h : n / 10 = 0
      · have h10 : n < 10 := by omega
        rw [if_pos h, Nat.digits_def' (by norm_num : (1:ℕ) < 10) hn, h]
        simp [Nat.mod_eq_of_lt h10]
      · have hpos : 0 < n / 10 := Nat.pos_of_ne_zero h
        have hlt : n / 10 < fuel := by
          have : n / 10 < n := Nat.div_lt_self hn (by norm_num)
          omega
        rw [if_neg h, ih (n / 10) _ hpos hlt,
          Nat.digits_def' (by norm_num : (1:ℕ) < 10) hn]
        simp

theorem toDigits_eq_digits (n : Nat) (hn : 0 < n) :
    Nat.toDigits 10 n = ((Nat.digits 10 n).map Nat.digitChar).reverse := by
  rw [Nat.toDigits, toDigitsCore_eq_digits (n + 1) n [] hn (Nat.lt_succ_self n)]
  simp

theorem digitChar_inj_lt : ∀ a < 10, ∀ b < 10,
    Nat.digitChar a = Nat.digitChar b → a = b := by decide

theorem map_digitChar_inj : ∀ (l₁ l₂ : List Nat),
    (∀ x ∈ l₁, x < 10) → (∀ x ∈ l₂, x < 10) →
    l₁.map Nat.digitChar = l₂.map Nat.digitChar → l₁ = l₂ := by
  intro l₁
  induction l₁ with
  | nil => intro l₂ _ _ h; cases l₂ <;> simp_all
  | cons a l ih =>
      intro l₂ h1 h2 h
      cases l₂ with
      | nil => simp_all
      | cons b m =>
          simp only [List.map_cons, List.cons.injEq] at h
          have hab := digitChar_inj_lt a (h1 a (by simp)) b (h2 b (by simp)) h.1
          have := ih m (fun x hx => h1 x (by simp [hx]))
            (fun x hx => h2 x (by simp [hx])) h.2
          simp [hab, this]

theorem nat_repr_injective : Function.Injective Nat.repr := by
  intro m n h
  have hds : Nat.toDigits 10 m = Nat.toDigits 10 n := congrArg String.data h
  rcases Nat.eq_zero_or_pos m with hm | hm
  · rcases Nat.eq_zero_or_pos n with hn | hn
    · omega
    · exfalso
      rw [hm] at hds
      have h0 : Nat.toDigits 10 0 = ['0'] := rfl
      rw [h0, toDigits_eq_digits n hn] at hds
      have hmap : (Nat.digits 10 n).map Nat.digitChar = ['0'] := by
        have := congrArg List.reverse hds
        simpa using this.symm
      have hd : Nat.digits 10 n = [0] := by
        apply map_digitChar_inj
        · intro x hx; exact Nat.digits_lt_base (by norm_num) hx
        · intro x hx; simp at hx; omega
        · simpa using hmap
      have := Nat.ofDigits_digits 10 n
      rw [hd] at this
      simp [Nat.ofDigits] at this
      omega
  · rcases Nat.eq_zero_or_pos n with hn | hn
    · exfalso
      rw [hn] at hds
      have h0 : Nat.toDigits 10 0 = ['0'] := rfl
      rw [h0, toDigits_eq_digits m hm] at hds
      have hmap : (Nat.digits 10 m).map Nat.digitChar = ['0'] := by
        have := congrArg List.reverse hds
        simpa using this
      have hd : Nat.digits 10 m = [0] := by
        apply map_digitChar_inj
        · intro x hx; exact Nat.digits_lt_base (by norm_num) hx
        · intro x hx; simp at hx; omega
        · simpa using hmap
      have := Nat.ofDigits_digits 10 m
      rw [hd] at this
      simp [Nat.ofDigits] at this
      omega
    · rw [toDigits_eq_digits m hm, toDigits_eq_digits n hn] at hds
      have hdig : Nat.digits 10 m = Nat.digits 10 n := by
        apply map_digitChar_inj
        · intro x hx; exact Nat.digits_lt_base (by norm_num) hx
        · intro x hx; exact Nat.digits_lt_base (by norm_num) hx
        · have := congrArg List.reverse hds
          simpa using this
      have h1 := Nat.ofDigits_digits 10 m
      have h2 := Nat.ofDigits_digits 10 n
      rw [hdig] at h1
      omega

theorem repr_length_pos (k : Nat) : 0 < (Nat.repr k).length := by
  rcases Nat.eq_zero_or_pos k with h | h
  · subst h; decide
  · have hlen : (Nat.repr k).length = (Nat.toDigits 10 k).length := rfl
    have hne : Nat.digits 10 k ≠ [] :=
      Nat.digits_ne_nil_iff_ne_zero.mpr (by omega)
    rw [hlen, toDigits_eq_digits k h]
    simpa [List.length_pos] using hne

theorem reportCandidate_injective (orig : ReportPath) :
    Function.Injective (reportCandidate orig) := by
  intro k₁ k₂ h
  unfold reportCandidate at h
  by_cases h1 : k₁ = 0 <;> by_cases h2 : k₂ = 0
  · omega
  · exfalso
    rw [if_pos h1, if_neg h2] at h
    have hstem := congrArg ReportPath.stem h
    have := congrArg String.length hstem
    simp [String.length_append] at this
    have := repr_length_pos k₂
    omega
  · exfalso
    rw [if_neg h1, if_pos h2] at h
    have hstem := congrArg ReportPath.stem h
    have := congrArg String.length hstem
    simp [String.length_append] at this
    have := repr_length_pos k₁
    omega
  · rw [if_neg h1, if_neg h2] at h
    have hstem := congrArg ReportPath.stem h
    have hdata := congrArg String.data hstem
    simp only [String.data_append] at hdata
    rw [List.append_assoc, List.append_assoc] at hdata
    have hd2 := List.append_cancel_left hdata
    have hd3 := List.append_cancel_left hd2
    have : Nat.repr k₁ = Nat.repr k₂ := congrArg String.mk hd3
    exact nat_repr_injective this

theorem scanLoop_eq_some {existsF : ReportPath → Bool} {orig : ReportPath} :
    ∀ {fuel k p}, scanLoop existsF orig fuel k = some p →
      existsF p = false ∧ ∃ j, p = reportCandidate orig (k + j) := by
  intro fuel
  induction fuel with
  | zero => intro k p h; simp [scanLoop] at h
  | succ fuel ih =>
      intro k p h
      rw [scanLoop] at h
      by_cases hc : existsF (reportCandidate orig k)
      · simp only [hc, if_true] at h
        obtain ⟨h1, j, h2⟩ := ih h
        refine ⟨h1, j + 1, ?_⟩
        rw [h2]; congr 1; omega
      · simp only [hc, if_false] at h
        cases h
        exact ⟨by simpa using hc, 0, by simp⟩

theorem scanLoop_isSome {existsF : ReportPath → Bool} {orig : ReportPath} :
    ∀ {fuel k},
      (∃ j, j < fuel ∧ existsF (reportCandidate orig (k + j)) = false) →
      (scanLoop existsF orig fuel k).isSome := by
  intro fuel
  induction fuel with
  | zero => intro k h; obtain ⟨j, hj, _⟩ := h; omega
  | succ fuel ih =>
      intro k h
      rw [scanLoop]
      by_cases hc : existsF (reportCandidate orig k)
      · simp only [hc, if_true]
        apply ih
        obtain ⟨j, hj, hf⟩ := h
        have hj0 : j ≠ 0 := by
          intro h0
          rw [h0] at hf
          simp at hf
          exact absurd hc (by simp [hf])
        refine ⟨j - 1, by omega, ?_⟩
        have harith : k + 1 + (j - 1) = k + j := by omega
        rw [harith]; exact hf
      · simp [hc]

theorem choosePath_isSome (existing : List ReportPath) (orig : ReportPath) :
    (choosePath existing orig).isSome := by
  apply scanLoop_isSome
  by_contra hcon
  push_neg at hcon
  have hall : ∀ j < existing.length + 2, reportCandidate orig j ∈ existing := by
    intro j hj
    have := hcon j hj
    simpa using this
  have hsub : ((List.range (existing.length + 2)).map (reportCandidate orig))
      ⊆ existing := by
    intro x hx
    simp only [List.mem_map, List.mem_range] at hx
    obtain ⟨j, hj, rfl⟩ := hx
    exact hall j hj
  have hnodup : ((List.range (existing.length + 2)).map
      (reportCandidate orig)).Nodup :=
    (List.nodup_range _).map (reportCandidate_injective orig)
  have hle := (List.subperm_of_subset hnodup hsub).length_le
  simp at hle

theorem choosePath_spec {existing : List ReportPath} {orig p : ReportPath}
    (h : choosePath existing orig = some p) :
    p ∉ existing ∧ ∃ k, p = reportCandidate orig k := by
  obtain ⟨h1, k, h2⟩ := scanLoop_eq_some h
  refine ⟨by simpa using h1, k, by simpa using h2⟩

theorem mapM_dlp_ok : ∀ (items : List Item),
    (∀ item ∈ items, (item.lookup "download_path").isSome) →
    ∃ paths, (items.mapM (fun item =>
        match item.lookup "download_path" with
        | some p => Except.ok p
        | none => Except.error PyError.keyError) :
          Except PyError (List String)) = .ok paths ∧
      paths = items.map (fun item => (item.lookup "download_path").getD "") := by
  intro items
  induction items with
  | nil => intro _; exact ⟨[], rfl, rfl⟩
  | cons a l ih =>
      intro h
      obtain ⟨p, hp⟩ := Option.isSome_iff_exists.mp (h a (by simp))
      obtain ⟨paths, hps, hmap⟩ := ih (fun x hx => h x (by simp [hx]))
      refine ⟨p :: paths, ?_, by simp [hmap, hp]⟩
      rw [List.mapM_cons, hp, hps]
      rfl

theorem extractDownloadPaths_ok (items : List Item)
    (h : ∀ item ∈ items, (item.lookup "download_path").isSome) :
    ∃ paths, extractDownloadPaths items = .ok paths ∧
      paths = items.map (fun item => (item.lookup "download_path").getD "") := by
  obtain ⟨paths, hps, hmap⟩ := mapM_dlp_ok items h
  by_cases he : items.isEmpty
  · rw [List.isEmpty_iff] at he
    subst he
    exact ⟨[], rfl, rfl⟩
  · refine ⟨paths, ?_, hmap⟩
    unfold extractDownloadPaths
    rw [if_neg he]
    exact hps

theorem autopkgRunCmd_check_ne (r : RecipeRun) :
    autopkgRunCmd r false ≠ autopkgRunCmd r true := by
  intro h
  have hlen := congrArg List.length h
  simp only [autopkgRunCmd, Bool.false_eq_true, Bool.true_eq_false, if_false,
    if_true, reduceIte] at hlen
  split at hlen <;> simp at hlen

/-! ## The claims -/

/-- C1: for every recipe whose check-phase consolidated report contains zero
downloaded items, `run()` performs only the check-phase subprocess invocation
(its trace is exactly the check invocation, and no trace of a successful run
contains the full-phase invocation) and returns exactly the consolidated
report compiled after the check phase. -/
theorem claim_C1_run_short_circuit (r : RecipeRun) (env : RunEnv)
    (h : env.reportAfterCheck.downloaded_items = []) :
    Recipe.run r env =
      .ok (env.reportAfterCheck, [.runSubprocess (autopkgRunCmd r true)]) ∧
    ∀ rep trace, Recipe.run r env = .ok (rep, trace) →
      Effect.runSubprocess (autopkgRunCmd r false) ∉ trace := by
  have h1 : Recipe.run r env =
      .ok (env.reportAfterCheck, [.runSubprocess (autopkgRunCmd r true)]) := by
    unfold Recipe.run Recipe.runCheckPhase
    simp [h]
  refine ⟨h1, ?_⟩
  intro rep trace htr
  rw [h1] at htr
  injection htr with h3
  injection h3 with h4 h5
  rw [← h5]
  simp only [List.mem_singleton, Effect.runSubprocess.injEq]
  exact autopkgRunCmd_check_ne r

/-- Witness for C1: the pipeline evaluated on a concrete environment whose
check phase reports no downloads. -/
theorem claim_C1_run_short_circuit_witness :
    Recipe.run sampleRecipeRun sampleEnvNoDownloads =
      .ok (sampleEnvNoDownloads.reportAfterCheck,
        [.runSubprocess (autopkgRunCmd sampleRecipeRun true)]) :=
  (claim_C1_run_short_circuit sampleRecipeRun sampleEnvNoDownloads rfl).1

/-- C2: for every recipe whose check-phase consolidated report contains
N ≥ 1 downloaded items (each carrying its `download_path`, as the report
compiler produces them), `run()` collects exactly N `DownloadMetadata`
entries (one per downloaded item), persists exactly one `RecipeCache` keyed
by the recipe's file name (`self.name`), and only after that persistence
completes invokes the full phase exactly once, returning the full phase's
consolidated report.  The trace equality pins the order: the single save
precedes the single full-phase invocation. -/
theorem claim_C2_run_full_after_persist (r : RecipeRun) (env : RunEnv)
    (hne : env.reportAfterCheck.downloaded_items ≠ [])
    (hwf : ∀ item ∈ env.reportAfterCheck.downloaded_items,
      (item.lookup "download_path").isSome)
    (hsave : env.saveError = none) :
    ∃ paths,
      extractDownloadPaths env.reportAfterCheck.downloaded_items = .ok paths ∧
      paths = env.reportAfterCheck.downloaded_items.map
        (fun item => (item.lookup "download_path").getD "") ∧
      paths.length = env.reportAfterCheck.downloaded_items.length ∧
      (paths.map (getMetadataForItem env)).length =
        env.reportAfterCheck.downloaded_items.length ∧
      Recipe.run r env = .ok (env.reportAfterFull,
        [.runSubprocess (autopkgRunCmd r true),
         .saveCache r.cacheFile r.name
           { timestamp := env.now,
             metadata := paths.map (getMetadataForItem env) },
         .runSubprocess (autopkgRunCmd r false)]) := by
  obtain ⟨paths, hps, hmap⟩ := extractDownloadPaths_ok _ hwf
  have hlen : paths.length = env.reportAfterCheck.downloaded_items.length := by
    simp [hmap]
  refine ⟨paths, hps, hmap, hlen, by simp [hlen], ?_⟩
  have hin : env.reportAfterCheck.downloaded_items.isEmpty = false := by
    simpa [List.isEmpty_iff] using hne
  unfold Recipe.run Recipe.runCheckPhase Recipe.runFull getMetadata
  simp [hin, hps, hsave]

/-- Witness for C2: the pipeline evaluated on a concrete environment whose
check phase reports one downloaded item. -/
theorem claim_C2_run_full_after_persist_witness :
    ∃ paths,
      extractDownloadPaths
        sampleEnvOneDownload.reportAfterCheck.downloaded_items = .ok paths ∧
      paths = sampleEnvOneDownload.reportAfterCheck.downloaded_items.map
        (fun item => (item.lookup "download_path").getD "") ∧
      paths.length =
        sampleEnvOneDownload.reportAfterCheck.downloaded_items.length ∧
      (paths.map (getMetadataForItem sampleEnvOneDownload)).length =
        sampleEnvOneDownload.reportAfterCheck.downloaded_items.length ∧
      Recipe.run sampleRecipeRun sampleEnvOneDownload =
        .ok (sampleEnvOneDownload.reportAfterFull,
        [.runSubprocess (autopkgRunCmd sampleRecipeRun true),
         .saveCache sampleRecipeRun.cacheFile sampleRecipeRun.name
           { timestamp := sampleEnvOneDownload.now,
             metadata := paths.map (getMetadataForItem sampleEnvOneDownload) },
         .runSubprocess (autopkgRunCmd sampleRecipeRun false)]) :=
  claim_C2_run_full_after_persist sampleRecipeRun sampleEnvOneDownload
    (by decide) (by decide) rfl

/-- C3: the claim ("verify() twice with no intervening trust update invokes
the verification subprocess at most once; the second call performs no
invocation and returns the memoized state, TRUSTED on zero exit") is false
in the source.  `TRUSTED = True` aliases `UNTESTED = auto()` (because
`True == 1`), so a successful verification assigns a state that still
compares equal to `UNTESTED`: the first call returns the int `1` rather than
a trusted marker, and a second `verify()` after a successful first one
re-enters the `UNTESTED` branch and invokes the subprocess again — two
invocations in total.  Only the `FAILED` outcome is actually memoized (last
conjunct). -/
theorem claim_C3_verify_reinvokes :
    TrustInfoVerificationState.TRUSTED = TrustInfoVerificationState.UNTESTED ∧
    (Recipe.verifyTrustInfo TrustInfoVerificationState.UNTESTED 0).1 =
      TrustInfoVerificationState.UNTESTED ∧
    (Recipe.verifyTrustInfo TrustInfoVerificationState.UNTESTED 0).2.1 =
      PyValue.int 1 ∧
    (Recipe.verifyTrustInfo TrustInfoVerificationState.UNTESTED 0).2.2 +
      (Recipe.verifyTrustInfo
        (Recipe.verifyTrustInfo TrustInfoVerificationState.UNTESTED 0).1
        0).2.2 = 2 ∧
    (Recipe.verifyTrustInfo TrustInfoVerificationState.FAILED 0).2.2 = 0 := by
  refine ⟨rfl, ?_, ?_, ?_, ?_⟩ <;>
    simp [Recipe.verifyTrustInfo, TrustInfoVerificationState.value,
      TrustInfoVerificationState.TRUSTED]

/-- C4: for every prior trust state and every exit code of the trust-update
subprocess, `updateTrustInfo()` performs exactly one invocation, resets the
state to `UNTESTED`, and returns a success boolean that is true exactly when
the invocation exited with code zero. -/
theorem claim_C4_update_resets (st : TrustInfoVerificationState) (e : Int) :
    Recipe.updateTrustInfo st e = (.UNTESTED, e == 0, 1) := by
  unfold Recipe.updateTrustInfo
  by_cases h : e = 0 <;> simp [h]

/-- C5: for every set of existing report files and every pair of recipe
constructions over the same report directory — including two constructions
with the report-directory argument unset resolving to the same stem within
the same minute (`name1 = name2`) — the scan-and-increment disambiguation
assigns both constructions report paths that are not among the existing
files and are distinct from each other (each being some candidate of its
original path). -/
theorem claim_C5_report_path_disambiguation (existing : List ReportPath)
    (reportDirArg : Option String)
    (settingsReportDir nowStr name1 name2 : String) :
    ∃ p1 p2,
      constructTwoReports existing
        (mkOrigReportPath reportDirArg settingsReportDir nowStr name1)
        (mkOrigReportPath reportDirArg settingsReportDir nowStr name2) =
        some (p1, p2) ∧
      p1 ∉ existing ∧ p2 ∉ existing ∧ p1 ≠ p2 ∧
      (∃ k1, p1 = reportCandidate
        (mkOrigReportPath reportDirArg settingsReportDir nowStr name1) k1) ∧
      (∃ k2, p2 = reportCandidate
        (mkOrigReportPath reportDirArg settingsReportDir nowStr name2) k2) := by
  obtain ⟨p1, hp1⟩ := Option.isSome_iff_exists.mp
    (choosePath_isSome existing
      (mkOrigReportPath reportDirArg settingsReportDir nowStr name1))
  obtain ⟨hmem1, k1, hk1⟩ := choosePath_spec hp1
  obtain ⟨p2, hp2⟩ := Option.isSome_iff_exists.mp
    (choosePath_isSome (p1 :: existing)
      (mkOrigReportPath reportDirArg settingsReportDir nowStr name2))
  obtain ⟨hmem2, k2, hk2⟩ := choosePath_spec hp2
  refine ⟨p1, p2, ?_, hmem1, ?_, ?_, ⟨k1, hk1⟩, ⟨k2, hk2⟩⟩
  · unfold constructTwoReports
    simp only [hp1, hp2]
  · intro hc
    exact hmem2 (List.mem_cons_of_mem _ hc)
  · intro hc
    exact hmem2 (hc ▸ List.mem_cons_self _ _)

/-- C6: for every recipe name without a recognized recipe extension, the
locator's candidate list is exactly `name.recipe`, `name.recipe.plist`,
`name.recipe.yaml` in that order; the lookup returns the first existing
match of the flattened directory-then-candidate order (override directories
before search directories); and when nothing matches, construction fails
with `RecipeLookupException` with an empty effect trace — before any I/O
side effect. -/
theorem claim_C6_locator (fs : FileSys) (pe : ParseEnv) (recipeName : String)
    (reportDirArg : Option String) (settingsReportDir nowStr : String)
    (existing : List ReportPath) (h : hasRecipeExt recipeName = false) :
    possibleFilenames recipeName =
      [recipeName ++ ".recipe", recipeName ++ ".recipe.plist",
        recipeName ++ ".recipe.yaml"] ∧
    findRecipe fs recipeName =
      (match ((fs.overrideDirs ++ fs.searchDirs).flatMap (fun d =>
          (possibleFilenames recipeName).flatMap (fun fn =>
            fs.rglob (fs.expanduser d) fn))).find? fs.fexists with
        | some p => Except.ok p
        | none => Except.error (PyError.lookup recipeName)) ∧
    (findRecipe fs recipeName = .error (.lookup recipeName) →
      recipeInit fs pe recipeName reportDirArg settingsReportDir nowStr
        existing = ([], .error (.lookup recipeName))) := by
  refine ⟨by simp [possibleFilenames, h], ?_, ?_⟩
  · unfold findRecipe
    simp only [List.find?_flatMap]
  · intro herr
    unfold recipeInit
    rw [herr]

/-- Witness for C6: on a concrete filesystem with no matches, construction
fails with the lookup error and an empty effect trace. -/
theorem claim_C6_locator_witness :
    recipeInit emptyFileSys sampleParseEnv "Foo" none "recipe_reports" "t" []
      = ([], .error (.lookup "Foo")) :=
  (claim_C6_locator emptyFileSys sampleParseEnv "Foo" none "recipe_reports"
    "t" [] (by decide)).2.2 (by rfl)

/-- C7: for every located recipe file, a document accepted by the format's
decoder parses to a `RecipeContents` whose identifier is the document's
declared identifier, and a document the decoder rejects always fails with
the format-specific content error carrying the file path — never any other
error. -/
theorem claim_C7_parse_contents (path : String)
    (parsePlist parseYaml : String → Option RecipeContents) (doc : String) :
    (∀ c, Recipe.getContents .yaml path parsePlist parseYaml doc = .ok c →
      some c.Identifier = declaredIdentifier parseYaml doc) ∧
    (∀ c, Recipe.getContents .plist path parsePlist parseYaml doc = .ok c →
      some c.Identifier = declaredIdentifier parsePlist doc) ∧
    (parseYaml doc = none →
      Recipe.getContents .yaml path parsePlist parseYaml doc =
        .error (.invalidYaml path)) ∧
    (parsePlist doc = none →
      Recipe.getContents .plist path parsePlist parseYaml doc =
        .error (.invalidPlist path)) ∧
    (∀ e, Recipe.getContents .yaml path parsePlist parseYaml doc = .error e →
      e = .invalidYaml path) ∧
    (∀ e, Recipe.getContents .plist path parsePlist parseYaml doc = .error e →
      e = .invalidPlist path) := by
  unfold Recipe.getContents Recipe.getContentsYaml Recipe.getContentsPlist
    declaredIdentifier
  cases hy : parseYaml doc <;> cases hp : parsePlist doc <;> simp_all

/-- Witness for C7: a concrete rejected yaml document fails with
`InvalidYamlContents` carrying the path. -/
theorem claim_C7_parse_contents_witness :
    Recipe.getContents .yaml "p" sampleParseEnv.parsePlist
      sampleParseEnv.parseYaml "bad" = .error (.invalidYaml "p") :=
  (claim_C7_parse_contents "p" sampleParseEnv.parsePlist sampleParseEnv.parseYaml
    "bad").2.2.1 (by rfl)

/-- C8: accessing the name input fails with `RecipeInputException` exactly
when the `Input` mapping has no `NAME` key, returns exactly the mapped
string when it is present, and the absence of `NAME` does not disturb
parsing (the error arises only at the accessor). -/
theorem claim_C8_input_name (path : String) (contents : RecipeContents) :
    (contents.Input.lookup "NAME" = none →
      Recipe.inputName path contents = .error (.input path)) ∧
    (∀ v, contents.Input.lookup "NAME" = some v →
      Recipe.inputName path contents = .ok v) ∧
    (∀ (parseYaml : String → Option RecipeContents) (doc : String),
      parseYaml doc = some contents →
      Recipe.getContentsYaml path parseYaml doc = .ok contents) := by
  refine ⟨?_, ?_, ?_⟩
  · intro h
    unfold Recipe.inputName
    rw [h]
  · intro v h
    unfold Recipe.inputName
    rw [h]
  · intro parseYaml doc h
    unfold Recipe.getContentsYaml
    rw [h]

/-- Witness for C8: the accessor on concrete contents carrying
`NAME = "Foo"` returns exactly `"Foo"`. -/
theorem claim_C8_input_name_witness :
    Recipe.inputName "p"
      { Description := none, Identifier := "id", Input := [("NAME", "Foo")],
        MinimumVersion := none, ParentRecipe := none, Process := [] } =
      .ok "Foo" :=
  (claim_C8_input_name "p" _).2.1 "Foo" (by rfl)

/-- C9: the download-path extraction yields `[]` on an empty input, but on a
non-empty input whose entry lacks a `download_path` key it raises `KeyError`
instead of returning the paths without error — contradicting both the claim
and the function's own docstring ("Returns an empty list if ... any of the
intermediate keys are missing"). -/
theorem claim_C9_extract_raises :
    extractDownloadPaths [] = .ok [] ∧
    extractDownloadPaths [[]] = .error .keyError := by
  constructor <;> rfl

/-- C10: after the module-level `SettingsImpl()` construction, a second
construction with any constructor arguments returns the identical singleton
instance (same object identity, every field unchanged) and leaves the class
state unchanged: the second call's arguments are ignored. -/
theorem claim_C10_settings_singleton (id1 id2 : Nat) (args : CtorArgs) :
    settingsImplCall none id1 {} =
      .ok (defaultSettingsObj id1, some (defaultSettingsObj id1)) ∧
    settingsImplCall (some (defaultSettingsObj id1)) id2 args =
      .ok (defaultSettingsObj id1, some (defaultSettingsObj id1)) := by
  constructor
  · rfl
  · unfold settingsImplCall settingsInit defaultSettingsObj
    simp

end CloudAutopkgRunner
